import Mathlib

/-!
Verification of the `logger` package (src/utils/logger/logger.go), a thin
wrapper around the zap structured-logging library.  The package keeps one
process-wide variable `globalLogger *zap.Logger`; we model it as an
`Option Logger` value threaded explicitly through each operation.
File-system effects are abstracted by an `openFile` oracle passed to
`InitLogger`, and the result of `zap.NewProduction()` by a fixed
`Except`-valued constant.
-/

namespace logger

/-- zapcore.Level: the severity levels used by the package. -/
inductive Level where
  | debug
  | info
  | warn
  | error
  | fatal
deriving DecidableEq, Repr

/-- The numeric value of each zapcore.Level (Debug = -1, Info = 0, Warn = 1,
Error = 2, Fatal = 5); a core with threshold `t` accepts a record of level
`l` iff `t.val ≤ l.val`. -/
def Level.val : Level → Int
  | .debug => -1
  | .info => 0
  | .warn => 1
  | .error => 2
  | .fatal => 5

/-- The level encoders appearing in logger.go: the console core uses
`zapcore.CapitalColorLevelEncoder` inside a console encoder, the file core
uses `zapcore.CapitalLevelEncoder` inside a JSON encoder, and
`zap.NewProduction` uses its own JSON production encoder. -/
inductive Encoder where
  | consoleColor
  | jsonCapital
  | jsonProduction
deriving DecidableEq, Repr

/-- The write destinations appearing in logger.go: `os.Stdout` for the
console core, `os.Stderr` for the production fallback, and an append-mode
file for the file core. -/
inductive WriteSyncer where
  | stdout
  | stderr
  | file (path : String)
deriving DecidableEq, Repr

/-- One `zapcore.Core`: an encoder, a destination, and the minimum severity
it accepts (`zapcore.NewCore(enc, out, threshold)`). -/
structure Core where
  enc : Encoder
  out : WriteSyncer
  threshold : Level
deriving DecidableEq, Repr

/-- A `*zap.Logger` as built by this package: a tee of cores plus the
options `zap.AddCaller()` and `zap.AddStacktrace(minLevel)`. -/
structure Logger where
  cores : List Core
  addCaller : Bool
  stacktraceFrom : Level
deriving DecidableEq, Repr

/-- A log record: severity, message, and structured fields. -/
structure Record where
  sev : Level
  msg : String
  fields : List (String × String)
deriving DecidableEq, Repr

/-- One formatted write produced by an emit: which destination received the
record, under which encoding, and whether a stack trace was attached. -/
structure Output where
  dest : WriteSyncer
  enc : Encoder
  record : Record
  stack : Bool
deriving DecidableEq, Repr

/-- The write a given core performs for a record it accepts. -/
def outputFor (lg : Logger) (c : Core) (r : Record) : Output :=
  { dest := c.out
    enc := c.enc
    record := r
    stack := decide (lg.stacktraceFrom.val ≤ r.sev.val) }

/-- Emitting a record through a tee of cores: each core whose threshold is
at or below the record's severity formats and writes it; cores above the
severity drop it before formatting. -/
def Logger.emit (lg : Logger) (r : Record) : List Output :=
  lg.cores.filterMap fun c =>
    if c.threshold.val ≤ r.sev.val then some (outputFor lg c r) else none

/-- The level-parsing switch at the top of InitLogger: exact case-sensitive
match on the four literals, any other string falls to the default arm
(`zapLevel = zapcore.InfoLevel`). -/
def parseLevel (level : String) : Level :=
  match level with
  | "debug" => Level.debug
  | "info" => Level.info
  | "warn" => Level.warn
  | "error" => Level.error
  | _ => Level.info

/-- The console core built by InitLogger: console encoder with colored
capital levels, writing to stdout, filtered at `zapLevel`. -/
def consoleCore (zapLevel : Level) : Core :=
  { enc := .consoleColor, out := .stdout, threshold := zapLevel }

/-- The file core built by InitLogger when a log file is given: JSON encoder
with plain capital levels, writing to the opened file, filtered at the same
`zapLevel`. -/
def fileCore (zapLevel : Level) (path : String) : Core :=
  { enc := .jsonCapital, out := .file path, threshold := zapLevel }

/-- `zap.New(zapcore.NewTee(cores...), zap.AddCaller(),
zap.AddStacktrace(zapcore.ErrorLevel))`. -/
def mkLogger (cores : List Core) : Logger :=
  { cores := cores, addCaller := true, stacktraceFrom := Level.error }

/-- The value InitLogger returns. -/
inductive InitResult where
  | ok
  | ioError (msg : String)
deriving DecidableEq, Repr

/-- The observable effect of one InitLogger call: its return value, the
process-wide logger variable afterwards, and the list of files it
successfully opened in append/create mode. -/
structure InitOut where
  result : InitResult
  state : Option Logger
  opened : List String
deriving DecidableEq, Repr

/-- InitLogger.  `openFile` abstracts
`os.OpenFile(logFile, O_APPEND|O_CREATE|O_WRONLY, 0644)`: `.ok ()` means the
handle was obtained, `.error e` the failure message.  The body mirrors
logger.go: parse the level, build the console core, and only when
`logFile != ""` attempt the open — returning the wrapped error without
touching `globalLogger` on failure, otherwise appending the file core —
then install the tee as the new global state. -/
def InitLogger (openFile : String → Except String Unit)
    (level logFile : String) (st : Option Logger) : InitOut :=
  let zapLevel := parseLevel level
  let cores : List Core := [consoleCore zapLevel]
  let step : Except String (List Core × List String) :=
    if logFile ≠ "" then
      match openFile logFile with
      | .error e => .error e
      | .ok _ => .ok (cores ++ [fileCore zapLevel logFile], [logFile])
    else
      .ok (cores, [])
  match step with
  | .error e =>
      { result := .ioError ("failed to open log file: " ++ e)
        state := st
        opened := [] }
  | .ok (cores, opened) =>
      { result := .ok
        state := some (mkLogger cores)
        opened := opened }

/-- The logger `zap.NewProduction()` builds: a single JSON core to stderr at
Info level, with caller annotation and stack traces from Error up. -/
def newProduction : Logger :=
  { cores := [{ enc := .jsonProduction, out := .stderr, threshold := Level.info }]
    addCaller := true
    stacktraceFrom := Level.error }

/-- `zap.NewProduction()` as called on the fallback path; it cannot fail
(its output paths are the always-available stderr), so the result is `.ok`.
The Go code discards the error component regardless. -/
def newProductionResult : Except String Logger := .ok newProduction

/-- GetLogger: if the global variable is nil, install the production
fallback (`globalLogger, _ = zap.NewProduction()` keeps only the logger
component, which would be nil had construction failed), then return the
global variable.  First component: the returned pointer; second: the
variable afterwards. -/
def GetLogger (st : Option Logger) : Option Logger × Option Logger :=
  match st with
  | some lg => (some lg, some lg)
  | none =>
      let g : Option Logger := newProductionResult.toOption
      (g, g)

/-- Sync: if the global variable is non-nil, call its Sync method and
discard the result (`_ = globalLogger.Sync()`).  `syncRes` abstracts what
the underlying tee's Sync returns.  First component: the error surfaced to
the caller (the Go function has no return value, so it is always `none`);
second: the variable afterwards. -/
def Sync (syncRes : Logger → Except String Unit) (st : Option Logger) :
    Option String × Option Logger :=
  match st with
  | none => (none, st)
  | some lg =>
      match syncRes lg with
      | .ok _ => (none, st)
      | .error _ => (none, st)

/-- What one package-level emit helper does: it either panics (a nil logger
pointer was dereferenced) or writes a list of outputs, with a flag recording
whether the call then terminated the process (zap's Fatal hook). -/
inductive EmitOutcome where
  | panicked
  | wrote (outs : List Output) (terminated : Bool)
deriving DecidableEq, Repr

/-- The shared shape of the helper functions Debug/Info/Warn/Error/Fatal:
`GetLogger().<Level>(msg, fields...)`.  A Fatal-level entry terminates the
process after writing (zap checks Fatal entries with WriteThenFatal even
when every core rejects them). -/
def emitAt (lvl : Level) (msg : String) (fields : List (String × String))
    (st : Option Logger) : EmitOutcome × Option Logger :=
  match GetLogger st with
  | (some lg, st') =>
      (.wrote (lg.emit { sev := lvl, msg := msg, fields := fields }) (lvl == Level.fatal), st')
  | (none, st') => (.panicked, st')

/-- `func Debug(msg string, fields ...zap.Field)`. -/
def Debug (msg : String) (fields : List (String × String)) (st : Option Logger) :
    EmitOutcome × Option Logger :=
  emitAt Level.debug msg fields st

/-- `func Info(msg string, fields ...zap.Field)`. -/
def Info (msg : String) (fields : List (String × String)) (st : Option Logger) :
    EmitOutcome × Option Logger :=
  emitAt Level.info msg fields st

/-- `func Warn(msg string, fields ...zap.Field)`. -/
def Warn (msg : String) (fields : List (String × String)) (st : Option Logger) :
    EmitOutcome × Option Logger :=
  emitAt Level.warn msg fields st

/-- `func Error(msg string, fields ...zap.Field)`. -/
def Error (msg : String) (fields : List (String × String)) (st : Option Logger) :
    EmitOutcome × Option Logger :=
  emitAt Level.error msg fields st

/-- `func Fatal(msg string, fields ...zap.Field)`. -/
def Fatal (msg : String) (fields : List (String × String)) (st : Option Logger) :
    EmitOutcome × Option Logger :=
  emitAt Level.fatal msg fields st

/-! Interleaving model of GetLogger for concurrent first use.  GetLogger's
body is three shared-memory accesses with nothing synchronizing them:
read `globalLogger` and test it against nil; if it was nil, write a freshly
constructed production logger into `globalLogger`; finally read
`globalLogger` again for the return.  Distinct calls to
`zap.NewProduction()` yield distinct heap instances, modelled by numeric
instance ids; the shared variable holds `Option Nat`. -/

/-- Program counter of one thread running GetLogger's body. -/
inductive TPc where
  | start
  | install
  | ret
  | done
deriving DecidableEq, Repr

/-- One thread: where it is in GetLogger's body, the id of the fresh
instance it would install, and the pointer it returned (once done). -/
structure RaceThread where
  pc : TPc
  inst : Nat
  retVal : Option Nat
deriving DecidableEq, Repr

/-- One step of a thread against the shared variable `g`: the nil test, the
unguarded install, or the final read for the return. -/
def stepGetLogger (g : Option Nat) (t : RaceThread) : Option Nat × RaceThread :=
  match t.pc with
  | .start => (g, { t with pc := if g = none then .install else .ret })
  | .install => (some t.inst, { t with pc := .ret })
  | .ret => (g, { t with pc := .done, retVal := g })
  | .done => (g, t)

/-- Shared variable plus two threads concurrently inside GetLogger. -/
structure RaceState where
  globalInst : Option Nat
  tA : RaceThread
  tB : RaceThread
deriving DecidableEq, Repr

/-- Run one scheduler choice: `true` steps thread A, `false` thread B. -/
def raceStep (s : RaceState) (pickA : Bool) : RaceState :=
  if pickA then
    let (g, t) := stepGetLogger s.globalInst s.tA
    { s with globalInst := g, tA := t }
  else
    let (g, t) := stepGetLogger s.globalInst s.tB
    { s with globalInst := g, tB := t }

/-- Run a whole schedule. -/
def raceRun (sched : List Bool) (s : RaceState) : RaceState :=
  sched.foldl raceStep s

/-- Uninitialized process, both threads about to enter GetLogger; thread A
would build instance 0, thread B instance 1. -/
def raceInit : RaceState :=
  { globalInst := none
    tA := { pc := .start, inst := 0, retVal := none }
    tB := { pc := .start, inst := 1, retVal := none } }

/-! Helper lemmas shared by the claim theorems. -/

/-- On success, InitLogger installs the console core, plus the file core
exactly when a log file was given, both filtered at the parsed level. -/
theorem InitLogger_ok_state (openFile : String → Except String Unit)
    (level logFile : String) (st : Option Logger)
    (hok : (InitLogger openFile level logFile st).result = InitResult.ok) :
    (InitLogger openFile level logFile st).state =
      some (mkLogger (consoleCore (parseLevel level) ::
        (if logFile = "" then [] else [fileCore (parseLevel level) logFile]))) := by
  by_cases h : logFile = ""
  · subst h
    simp [InitLogger]
  · cases hopen : openFile logFile with
    | error e => simp [InitLogger, h, hopen] at hok
    | ok u => simp [InitLogger, h, hopen]

/-- InitLogger's return value does not depend on the prior global state. -/
theorem InitLogger_result_congr (openFile : String → Except String Unit)
    (level logFile : String) (st st' : Option Logger) :
    (InitLogger openFile level logFile st).result =
      (InitLogger openFile level logFile st').result := by
  by_cases h : logFile = ""
  · subst h; simp [InitLogger]
  · cases hopen : openFile logFile <;> simp [InitLogger, h, hopen]

/-- A logger whose cores all sit at threshold `t` drops a record strictly
below `t` in every core. -/
theorem emit_below (lg : Logger) (t : Level)
    (hc : ∀ c ∈ lg.cores, c.threshold = t) (r : Record)
    (hr : r.sev.val < t.val) : lg.emit r = [] := by
  unfold Logger.emit
  refine List.filterMap_eq_nil_iff.mpr ?_
  intro c hmem
  rw [hc c hmem, if_neg (not_le.mpr hr)]

/-- A logger whose cores all sit at threshold `t` writes a record at or
above `t` through every core. -/
theorem emit_above (lg : Logger) (t : Level)
    (hc : ∀ c ∈ lg.cores, c.threshold = t) (r : Record)
    (hr : t.val ≤ r.sev.val) (c : Core) (hmem : c ∈ lg.cores) :
    outputFor lg c r ∈ lg.emit r := by
  unfold Logger.emit
  exact List.mem_filterMap.mpr ⟨c, hmem, by rw [hc c hmem, if_pos hr]⟩

/-- Every core of a state successfully installed by InitLogger is filtered
at the parsed level. -/
theorem InitLogger_cores_threshold (openFile : String → Except String Unit)
    (level logFile : String) (st : Option Logger) (lg : Logger)
    (hok : (InitLogger openFile level logFile st).result = InitResult.ok)
    (hst : (InitLogger openFile level logFile st).state = some lg) :
    ∀ c ∈ lg.cores, c.threshold = parseLevel level := by
  have hchar := InitLogger_ok_state openFile level logFile st hok
  rw [hst] at hchar
  have hlg := Option.some.inj hchar
  intro c hc
  rw [hlg] at hc
  simp [mkLogger] at hc
  rcases hc with hc | hc
  · rw [hc]; rfl
  · rw [hc.2]; rfl

/-- No logger built by InitLogger equals the production fallback: its first
core is the colored console core on stdout, not the production JSON core on
stderr. -/
theorem mkLogger_console_ne_newProduction (z : Level) (rest : List Core) :
    mkLogger (consoleCore z :: rest) ≠ newProduction := by
  intro h
  simp [mkLogger, newProduction, consoleCore] at h

/-! The claim theorems. -/

/-- C1: after a successful InitLogger, every configured core carries the
same parsed threshold; a record strictly below that threshold appears in no
core's output, and a record at or above it is written by every configured
core. -/
theorem C1_threshold_filtering (openFile : String → Except String Unit)
    (level logFile : String) (st : Option Logger) (lg : Logger)
    (hok : (InitLogger openFile level logFile st).result = InitResult.ok)
    (hst : (InitLogger openFile level logFile st).state = some lg) :
    (∀ c ∈ lg.cores, c.threshold = parseLevel level) ∧
    (∀ r : Record, r.sev.val < (parseLevel level).val → lg.emit r = []) ∧
    (∀ r : Record, (parseLevel level).val ≤ r.sev.val →
      ∀ c ∈ lg.cores, outputFor lg c r ∈ lg.emit r) := by
  have hthr := InitLogger_cores_threshold openFile level logFile st lg hok hst
  exact ⟨hthr, fun r hr => emit_below lg _ hthr r hr,
    fun r hr c hc => emit_above lg _ hthr r hr c hc⟩

/-- C1 witness: Initialize("warn", "a.log") on a writable path, checked at
the resulting two-core logger. -/
theorem C1_threshold_filtering_witness :
    ((InitLogger (fun _ => Except.ok ()) "warn" "a.log" none).result = InitResult.ok ∧
      (InitLogger (fun _ => Except.ok ()) "warn" "a.log" none).state =
        some (mkLogger [consoleCore Level.warn, fileCore Level.warn "a.log"])) ∧
    ((∀ c ∈ (mkLogger [consoleCore Level.warn, fileCore Level.warn "a.log"]).cores,
        c.threshold = parseLevel "warn") ∧
      (∀ r : Record, r.sev.val < (parseLevel "warn").val →
        (mkLogger [consoleCore Level.warn, fileCore Level.warn "a.log"]).emit r = []) ∧
      (∀ r : Record, (parseLevel "warn").val ≤ r.sev.val →
        ∀ c ∈ (mkLogger [consoleCore Level.warn, fileCore Level.warn "a.log"]).cores,
          outputFor (mkLogger [consoleCore Level.warn, fileCore Level.warn "a.log"]) c r ∈
            (mkLogger [consoleCore Level.warn, fileCore Level.warn "a.log"]).emit r)) :=
  ⟨⟨rfl, rfl⟩,
    C1_threshold_filtering (fun _ => Except.ok ()) "warn" "a.log" none
      (mkLogger [consoleCore Level.warn, fileCore Level.warn "a.log"]) rfl rfl⟩

/-- The level mapping exactly as the spec words it: "debug" to Debug,
"info" to Info, "warn" to Warn, "error" to Error by exact case-sensitive
match, every other string to Info.  Stated separately from `parseLevel`
(which is translated from the Go switch) so the two can be compared. -/
def specParseLevel (s : String) : Level :=
  if s = "debug" then Level.debug
  else if s = "info" then Level.info
  else if s = "warn" then Level.warn
  else if s = "error" then Level.error
  else Level.info

/-- C2: the Go switch realizes exactly the spec's case-sensitive mapping
with default Info; InitLogger's return value never depends on the level
string (level parsing cannot produce an error); and every core of a
successfully installed state is filtered at the spec's mapping of the
level string. -/
theorem C2_level_parsing (openFile : String → Except String Unit)
    (s logFile : String) (st : Option Logger) (lg : Logger)
    (hok : (InitLogger openFile s logFile st).result = InitResult.ok)
    (hst : (InitLogger openFile s logFile st).state = some lg) :
    parseLevel s = specParseLevel s ∧
    (∀ s' : String, (InitLogger openFile s logFile st).result =
      (InitLogger openFile s' logFile st).result) ∧
    (∀ c ∈ lg.cores, c.threshold = specParseLevel s) := by
  have hparse : parseLevel s = specParseLevel s := by
    unfold parseLevel specParseLevel
    split <;> simp_all
  refine ⟨hparse, ?_, ?_⟩
  · intro s'
    by_cases h : logFile = ""
    · subst h; simp [InitLogger]
    · cases hopen : openFile logFile <;> simp [InitLogger, h, hopen]
  · have hthr := InitLogger_cores_threshold openFile s logFile st lg hok hst
    intro c hc
    rw [hthr c hc, hparse]

/-- C2 witness: an unrecognized mixed-case level string "Debug" with no log
file, checked at the resulting console-only logger (threshold Info). -/
theorem C2_level_parsing_witness :
    ((InitLogger (fun _ => Except.ok ()) "Debug" "" none).result = InitResult.ok ∧
      (InitLogger (fun _ => Except.ok ()) "Debug" "" none).state =
        some (mkLogger [consoleCore Level.info])) ∧
    (parseLevel "Debug" = specParseLevel "Debug" ∧
      (∀ s' : String, (InitLogger (fun _ => Except.ok ()) "Debug" "" none).result =
        (InitLogger (fun _ => Except.ok ()) s' "" none).result) ∧
      (∀ c ∈ (mkLogger [consoleCore Level.info]).cores,
        c.threshold = specParseLevel "Debug")) :=
  ⟨⟨rfl, rfl⟩,
    C2_level_parsing (fun _ => Except.ok ()) "Debug" "" none
      (mkLogger [consoleCore Level.info]) rfl rfl⟩

/-- C3: when a non-empty log file path cannot be opened for append,
InitLogger returns the wrapped open error and leaves the process-wide
logger variable exactly as it was before the call. -/
theorem C3_open_failure_atomic (openFile : String → Except String Unit)
    (level logFile : String) (st : Option Logger) (e : String)
    (hne : logFile ≠ "") (hfail : openFile logFile = Except.error e) :
    (InitLogger openFile level logFile st).result =
      InitResult.ioError ("failed to open log file: " ++ e) ∧
    (InitLogger openFile level logFile st).state = st ∧
    (InitLogger openFile level logFile st).opened = [] := by
  simp [InitLogger, hne, hfail]

/-- C3 witness: a denied open of "nope/x.log" with a previously absent
state. -/
theorem C3_open_failure_atomic_witness :
    (("nope/x.log" : String) ≠ "" ∧
      (fun _ : String => Except.error (ε := String) (α := Unit) "permission denied")
        "nope/x.log" = Except.error "permission denied") ∧
    ((InitLogger (fun _ => Except.error "permission denied") "info" "nope/x.log"
        none).result =
      InitResult.ioError ("failed to open log file: " ++ "permission denied") ∧
      (InitLogger (fun _ => Except.error "permission denied") "info" "nope/x.log"
        none).state = none ∧
      (InitLogger (fun _ => Except.error "permission denied") "info" "nope/x.log"
        none).opened = []) :=
  ⟨⟨by decide, rfl⟩,
    C3_open_failure_atomic (fun _ => Except.error "permission denied") "info"
      "nope/x.log" none "permission denied" (by decide) rfl⟩

/-- C4 counterexample: the fallback installed by a GetLogger call that
precedes initialization does not survive a later successful InitLogger —
InitLogger overwrites the global variable unconditionally. -/
theorem C4_fallback_replaced_cex :
    (GetLogger none).2 = some newProduction ∧
    (InitLogger (fun _ => Except.ok ()) "debug" "" ((GetLogger none).2)).state ≠
      (GetLogger none).2 := by
  decide

/-- C4 as amended: a later successful InitLogger replaces whatever state
was installed, fallback included: the state it installs is independent of
the prior state and is never the production fallback instance. -/
theorem C4_reinit_replaces (openFile : String → Except String Unit)
    (level logFile : String) (st : Option Logger)
    (hok : (InitLogger openFile level logFile st).result = InitResult.ok) :
    (InitLogger openFile level logFile st).state =
      (InitLogger openFile level logFile none).state ∧
    (InitLogger openFile level logFile st).state ≠ some newProduction := by
  have hok' : (InitLogger openFile level logFile none).result = InitResult.ok := by
    rw [InitLogger_result_congr openFile level logFile none st]; exact hok
  have h1 := InitLogger_ok_state openFile level logFile st hok
  have h2 := InitLogger_ok_state openFile level logFile none hok'
  refine ⟨h1.trans h2.symm, ?_⟩
  rw [h1]
  intro h
  exact mkLogger_console_ne_newProduction (parseLevel level) _ (Option.some.inj h)

/-- C4 amended witness: re-initializing after the fallback was installed. -/
theorem C4_reinit_replaces_witness :
    (InitLogger (fun _ => Except.ok ()) "debug" "" (some newProduction)).result =
      InitResult.ok ∧
    ((InitLogger (fun _ => Except.ok ()) "debug" "" (some newProduction)).state =
      (InitLogger (fun _ => Except.ok ()) "debug" "" none).state ∧
      (InitLogger (fun _ => Except.ok ()) "debug" "" (some newProduction)).state ≠
        some newProduction) :=
  ⟨rfl, C4_reinit_replaces (fun _ => Except.ok ()) "debug" "" (some newProduction) rfl⟩

/-- C5: GetLogger always returns a non-nil logger, in every state, and an
emit through the package helpers never panics (at any level, in any
state). -/
theorem C5_get_never_fails (st : Option Logger) (lvl : Level) (msg : String)
    (fields : List (String × String)) :
    (∃ lg : Logger, (GetLogger st).1 = some lg) ∧
    (emitAt lvl msg fields st).1 ≠ EmitOutcome.panicked := by
  cases st with
  | none =>
      exact ⟨⟨newProduction, rfl⟩,
        by simp [emitAt, GetLogger, newProductionResult, Except.toOption]⟩
  | some lg => exact ⟨⟨lg, rfl⟩, by simp [emitAt, GetLogger]⟩

/-- C6: with an empty log-file path, InitLogger succeeds for every level
string, opens no file, and installs a state whose only core is the console
core. -/
theorem C6_empty_path_console_only (openFile : String → Except String Unit)
    (level : String) (st : Option Logger) :
    (InitLogger openFile level "" st).result = InitResult.ok ∧
    (InitLogger openFile level "" st).opened = [] ∧
    (InitLogger openFile level "" st).state =
      some (mkLogger [consoleCore (parseLevel level)]) := by
  simp [InitLogger]

/-- C7: Fatal writes the record at Fatal severity through the active logger
(the prior state if one exists, else the freshly installed fallback) and
then terminates the process — the outcome always carries the terminated
flag, so control never returns, in any state. -/
theorem C7_fatal_terminates (st : Option Logger) (msg : String)
    (fields : List (String × String)) :
    (Fatal msg fields st).1 =
      EmitOutcome.wrote
        ((st.getD newProduction).emit
          { sev := Level.fatal, msg := msg, fields := fields }) true := by
  cases st <;> rfl

/-- C8: Sync surfaces no error to its caller whatever the underlying tee's
Sync returns, and leaves the logger variable untouched — in particular,
when no state is installed it performs no action and installs no
fallback. -/
theorem C8_sync_best_effort (syncRes : Logger → Except String Unit)
    (st : Option Logger) :
    (Sync syncRes st).1 = none ∧ (Sync syncRes st).2 = st := by
  cases st with
  | none => exact ⟨rfl, rfl⟩
  | some lg => cases hs : syncRes lg <;> simp [Sync, hs]

/-- C9: the unsynchronized check-then-install in GetLogger races: under the
schedule A-test, B-test, A-install, A-return, B-install, B-return, both
threads pass the nil test, each installs its own fallback instance, and the
two callers return distinct instances — not the single shared instance the
claim requires. -/
theorem C9_unsynchronized_fallback_race :
    (raceRun [true, false, true, true, false, false] raceInit).tA.pc = TPc.done ∧
    (raceRun [true, false, true, true, false, false] raceInit).tB.pc = TPc.done ∧
    (raceRun [true, false, true, true, false, false] raceInit).tA.retVal = some 0 ∧
    (raceRun [true, false, true, true, false, false] raceInit).tB.retVal = some 1 ∧
    (raceRun [true, false, true, true, false, false] raceInit).tA.retVal ≠
      (raceRun [true, false, true, true, false, false] raceInit).tB.retVal := by
  decide

/-- C10: GetLogger is idempotent once a state exists: on a non-nil variable
it returns exactly that instance and leaves the variable unchanged, and a
second GetLogger after any first one returns the same instance and state
again. -/
theorem C10_getLogger_idempotent (lg : Logger) (st : Option Logger) :
    GetLogger (some lg) = (some lg, some lg) ∧
    GetLogger (GetLogger st).2 = ((GetLogger st).1, (GetLogger st).2) := by
  refine ⟨rfl, ?_⟩
  cases st <;> rfl

end logger
